import Mathlib

/-!
Verification of the cache-validation core of the `http-cache-demo`
repository (`src/app.js`).

The embedding models:

* `sha1Hex` — the content digest computed by `getFileHash` in the source
  (`crypto.createHash("sha1")` fed by a read stream, hex output);
* `toUTCString` — the normalization `new Date(stat.ctime).toUTCString()`
  used by the timestamp-validated route (one-second granularity,
  `"Wed, 11 May 2022 10:48:50 GMT"` format);
* an abstract file-system entry (`FsEntry`) for the single resource each
  route serves: absent, or present with stat metadata and a body-read
  result that either yields the bytes or fails mid-stream;
* the three route handlers of `src/app.js`:
  `testCssHandler` (forced cache, `/test.css`),
  `testJsHandler` (timestamp validation, `/test.js`), and
  `cachePolicyHandler` (hash validation, `/cache_policy.jpeg`), the last
  one instrumented with a count of how many times the resource source is
  opened for reading, since one claim is about the number of reads.
-/

namespace HttpCacheDemo

/-! ### Bytes and SHA-1 -/

/-- A resource body is a finite byte sequence. -/
abbrev Bytes := List Nat

/-- Rotate the 32-bit value `x` left by `k` bits. -/
def rotl (k x : Nat) : Nat := ((x <<< k) ||| (x >>> (32 - k))) % 4294967296

/-- SHA-1 padding: append `0x80`, zero bytes up to 56 mod 64, then the
message length in bits as a 64-bit big-endian integer. -/
def sha1Pad (msg : Bytes) : Bytes :=
  let len := msg.length
  let zeros := (64 + 56 - ((len + 1) % 64)) % 64
  msg ++ [128] ++ List.replicate zeros 0 ++
    (List.range 8).map (fun i => ((len * 8) >>> (8 * (7 - i))) % 256)

/-- Process one 64-byte block, updating the five 32-bit chaining values. -/
def sha1Block (h : Nat × Nat × Nat × Nat × Nat) (block : Bytes) :
    Nat × Nat × Nat × Nat × Nat :=
  let w16 := (List.range 16).map (fun i =>
    (block.getD (4 * i) 0) * 16777216 + (block.getD (4 * i + 1) 0) * 65536 +
      (block.getD (4 * i + 2) 0) * 256 + block.getD (4 * i + 3) 0)
  let ws := (List.range 64).foldl (fun ws _ =>
    let n := ws.length
    ws ++ [rotl 1 ((((ws.getD (n - 3) 0) ^^^ (ws.getD (n - 8) 0)) ^^^
      (ws.getD (n - 14) 0)) ^^^ (ws.getD (n - 16) 0))]) w16
  let (h0, h1, h2, h3, h4) := h
  let (a, b, c, d, e) := ws.enum.foldl
    (fun (st : Nat × Nat × Nat × Nat × Nat) (iw : Nat × Nat) =>
      let (a, b, c, d, e) := st
      let i := iw.1
      let f :=
        if i < 20 then (b &&& c) ||| ((b ^^^ 4294967295) &&& d)
        else if i < 40 then (b ^^^ c) ^^^ d
        else if i < 60 then ((b &&& c) ||| (b &&& d)) ||| (c &&& d)
        else (b ^^^ c) ^^^ d
      let k :=
        if i < 20 then 1518500249
        else if i < 40 then 1859775393
        else if i < 60 then 2400959708
        else 3395469782
      let temp := (rotl 5 a + f + e + k + iw.2) % 4294967296
      (temp, a, rotl 30 b, c, d)) (h0, h1, h2, h3, h4)
  ((h0 + a) % 4294967296, (h1 + b) % 4294967296, (h2 + c) % 4294967296,
    (h3 + d) % 4294967296, (h4 + e) % 4294967296)

/-- The five 32-bit words of the SHA-1 digest of a byte sequence. -/
def sha1Digest (msg : Bytes) : Nat × Nat × Nat × Nat × Nat :=
  let padded := sha1Pad msg
  let blocks := (List.range (padded.length / 64)).map
    (fun b => (padded.drop (64 * b)).take 64)
  blocks.foldl sha1Block (1732584193, 4023233417, 2562383102, 271733878, 3285377520)

/-- Lower-case hexadecimal digit for a value below 16. -/
def hexDigit (d : Nat) : Char :=
  if d < 10 then Char.ofNat (48 + d) else Char.ofNat (87 + d)

/-- The eight hex characters of a 32-bit word, most significant nibble first. -/
def hex8List (n : Nat) : List Char :=
  (List.range 8).map (fun i => hexDigit ((n >>> (4 * (7 - i))) % 16))

/-- `getFileHash`'s digest of a byte sequence: the 40-character lower-case
hex SHA-1 digest, as produced by `hash.digest("hex")` in the source. -/
def sha1Hex (msg : Bytes) : String :=
  let (h0, h1, h2, h3, h4) := sha1Digest msg
  String.mk (hex8List h0 ++ hex8List h1 ++ hex8List h2 ++ hex8List h3 ++ hex8List h4)

/-- A character is a lower-case hexadecimal digit. -/
def isHexChar (c : Char) : Bool := c.isDigit || (97 ≤ c.toNat && c.toNat ≤ 102)

/-! ### Timestamp normalization (`new Date(...).toUTCString()`) -/

/-- Two-digit zero-padded decimal rendering. -/
def pad2 (n : Nat) : String := if n < 10 then "0" ++ toString n else toString n

/-- English weekday abbreviation, `0 = Sun`. -/
def dayName : Nat → String
  | 0 => "Sun" | 1 => "Mon" | 2 => "Tue" | 3 => "Wed"
  | 4 => "Thu" | 5 => "Fri" | _ => "Sat"

/-- English month abbreviation, `1 = Jan`. -/
def monthName : Nat → String
  | 1 => "Jan" | 2 => "Feb" | 3 => "Mar" | 4 => "Apr" | 5 => "May" | 6 => "Jun"
  | 7 => "Jul" | 8 => "Aug" | 9 => "Sep" | 10 => "Oct" | 11 => "Nov" | _ => "Dec"

/-- Gregorian calendar date `(year, month, day)` of a day count since the
Unix epoch (1970-01-01), by the standard civil-from-days algorithm. -/
def civilFromDays (z0 : Nat) : Nat × Nat × Nat :=
  let z := z0 + 719468
  let era := z / 146097
  let doe := z % 146097
  let yoe := (doe - doe / 1460 + doe / 36524 - doe / 146096) / 365
  let y := yoe + era * 400
  let doy := doe - (365 * yoe + yoe / 4 - yoe / 100)
  let mp := (5 * doy + 2) / 153
  let d := doy - (153 * mp + 2) / 5 + 1
  let m := if mp < 10 then mp + 3 else mp - 9
  (if m ≤ 2 then y + 1 else y, m, d)

/-- JavaScript `Date.prototype.toUTCString` on a timestamp in whole seconds
since the Unix epoch: `"Wed, 11 May 2022 10:48:50 GMT"`. -/
def toUTCString (secs : Nat) : String :=
  let days := secs / 86400
  let rem := secs % 86400
  let ymd := civilFromDays days
  dayName ((days + 4) % 7) ++ ", " ++ pad2 ymd.2.2 ++ " " ++ monthName ymd.2.1 ++
    " " ++ toString ymd.1 ++ " " ++ pad2 (rem / 3600) ++ ":" ++
    pad2 ((rem % 3600) / 60) ++ ":" ++ pad2 (rem % 60) ++ " GMT"

/-! ### The file-system model -/

/-- The stat metadata of a file, in milliseconds since the epoch, as
`fs.statSync` reports it: `mtimeMs` is the content-modification time and
`ctimeMs` the inode status-change time.  The source only ever reads
`ctime`; carrying both lets us state which one the code depends on. -/
structure FileStat where
  mtimeMs : Nat
  ctimeMs : Nat
  deriving DecidableEq, Repr

/-- Storage failures: the resource does not exist (`ENOENT`, surfaced by
the spec as `NotFound`), or a read fails mid-stream (`IOError`). -/
inductive FsError where
  | notFound
  | ioError
  deriving DecidableEq, Repr

/-- The state of the one resource a route serves: absent, or a file with
stat metadata and a body-read result (`Except.error ()` when any attempt
to read the body fails mid-stream, `Except.ok data` when reading yields
`data`). -/
inductive FsEntry where
  | absent
  | file (stat : FileStat) (readResult : Except Unit Bytes)
  deriving Repr

/-- `fs.statSync`: metadata-only probe; throws `ENOENT` on a missing file. -/
def fsStatSync : FsEntry → Except FsError FileStat
  | .absent => .error .notFound
  | .file stat _ => .ok stat

/-- `asyncReadFile` from the source: resolves with the full contents, or
rejects with `ENOENT` (missing file) or a read error. -/
def asyncReadFile : FsEntry → Except FsError Bytes
  | .absent => .error .notFound
  | .file _ (.error _) => .error .ioError
  | .file _ (.ok data) => .ok data

/-- `getFileHash` from the source: streams the full body through SHA-1 and
resolves with the hex digest; rejects on a stream error (missing file or
mid-stream failure). -/
def getFileHash : FsEntry → Except FsError String
  | .absent => .error .notFound
  | .file _ (.error _) => .error .ioError
  | .file _ (.ok data) => .ok (sha1Hex data)

/-- The conditional request headers the handlers consult, each absent or
an opaque string, as `req.headers["if-modified-since"]` and
`req.headers["if-none-match"]` yield them. -/
structure ConditionalRequest where
  ifModifiedSince : Option String
  ifNoneMatch : Option String
  deriving DecidableEq, Repr

/-- Spec-modelled: the surfacing of a storage failure as an HTTP status
code (`404` on `NotFound`, `500` on `IOError`) is performed by the serving
collaborator (the Express framework), whose code is not part of this
repository; modelled from the spec's external-interface section. -/
def statusOfError : FsError → Nat
  | .notFound => 404
  | .ioError => 500

/-! ### The three route handlers of `src/app.js` -/

/-- A completed response of the forced-cache route `/test.css`. -/
structure CssResponse where
  status : Nat
  contentType : String
  cacheControl : String
  body : Bytes
  deriving DecidableEq, Repr

/-- The `/test.css` handler: reads the file and answers `200` with
`Cache-Control: public,max-age=30`, ignoring the request's conditional
headers entirely (`async (_req, res)` in the source). -/
def testCssHandler (e : FsEntry) (_req : ConditionalRequest) :
    Except FsError CssResponse :=
  match asyncReadFile e with
  | .error err => .error err
  | .ok data => .ok ⟨200, "text/css", "public,max-age=30", data⟩

/-- A completed response of the timestamp-validated route `/test.js`. -/
structure TsResponse where
  status : Nat
  contentType : String
  lastModified : String
  body : Bytes
  deriving DecidableEq, Repr

/-- The `/test.js` handler: stats the file, normalizes `stat.ctime` with
`toUTCString`, emits it as `Last-Modified`, and answers `304` with an empty
body exactly when `if-modified-since` equals the normalized string, else
reads the body and answers `200`. -/
def testJsHandler (e : FsEntry) (req : ConditionalRequest) :
    Except FsError TsResponse :=
  match fsStatSync e with
  | .error err => .error err
  | .ok stat =>
    let ctime := toUTCString (stat.ctimeMs / 1000)
    if req.ifModifiedSince = some ctime then
      .ok ⟨304, "text/javascript", ctime, []⟩
    else
      match asyncReadFile e with
      | .error err => .error err
      | .ok data => .ok ⟨200, "text/javascript", ctime, data⟩

/-- A completed response of the hash-validated route `/cache_policy.jpeg`. -/
structure EtagResponse where
  status : Nat
  contentType : String
  etag : String
  cacheControl : String
  body : Bytes
  deriving DecidableEq, Repr

/-- The `/cache_policy.jpeg` handler: computes the SHA-1 digest via
`getFileHash` (which consumes one full read of the source), emits it as
`Etag` together with `Cache-Control: public, max-age=10`, and answers
`304` with an empty body when `if-none-match` equals the digest; otherwise
it opens the source again with `fs.createReadStream` and pipes it as a
`200` body.  The second component counts how many times the resource
source is opened for reading while handling the request. -/
def cachePolicyHandler (e : FsEntry) (req : ConditionalRequest) :
    Except FsError EtagResponse × Nat :=
  match getFileHash e with
  | .error err => (.error err, 1)
  | .ok fileHash =>
    if req.ifNoneMatch = some fileHash then
      (.ok ⟨304, "image/jpeg", fileHash, "public, max-age=10", []⟩, 1)
    else
      match asyncReadFile e with
      | .error err => (.error err, 2)
      | .ok data => (.ok ⟨200, "image/jpeg", fileHash, "public, max-age=10", data⟩, 2)

/-! ### Helper lemmas -/

theorem hex8List_length (n : Nat) : (hex8List n).length = 8 := by
  simp [hex8List]

theorem hexDigit_isHex : ∀ d < 16, isHexChar (hexDigit d) = true := by decide

theorem hex8List_all_hex (n : Nat) : (hex8List n).all isHexChar = true := by
  rw [List.all_eq_true]
  intro c hc
  rw [hex8List, List.mem_map] at hc
  obtain ⟨i, _, rfl⟩ := hc
  exact hexDigit_isHex _ (Nat.mod_lt _ (by norm_num))

theorem tsHandler_ok_lastModified (st : FileStat) (rr : Except Unit Bytes)
    (req : ConditionalRequest) (r : TsResponse)
    (h : testJsHandler (.file st rr) req = .ok r) :
    r.lastModified = toUTCString (st.ctimeMs / 1000) := by
  cases rr with
  | error u =>
    simp only [testJsHandler, fsStatSync, asyncReadFile] at h
    split at h
    · cases h; rfl
    · cases h
  | ok data =>
    simp only [testJsHandler, fsStatSync, asyncReadFile] at h
    split at h
    · cases h; rfl
    · cases h; rfl

/-! ### Claim theorems -/

/-- C1: on the timestamp-validated route `/test.js`, with the resource
present and readable, the handler returns the 304 empty-body response
exactly when `if-modified-since` is present and string-equal to the
normalized modification timestamp, and for every other header value it
returns 200 with the full body. -/
theorem timestampValidator_unchanged_iff (st : FileStat) (data : Bytes)
    (req : ConditionalRequest) :
    (testJsHandler (.file st (.ok data)) req =
        .ok ⟨304, "text/javascript", toUTCString (st.ctimeMs / 1000), []⟩ ↔
      req.ifModifiedSince = some (toUTCString (st.ctimeMs / 1000))) ∧
    (req.ifModifiedSince ≠ some (toUTCString (st.ctimeMs / 1000)) →
      testJsHandler (.file st (.ok data)) req =
        .ok ⟨200, "text/javascript", toUTCString (st.ctimeMs / 1000), data⟩) := by
  by_cases h : req.ifModifiedSince = some (toUTCString (st.ctimeMs / 1000)) <;>
    simp [testJsHandler, fsStatSync, asyncReadFile, h]

/-- Witness for C1: with no `if-modified-since` header the handler serves
the full body with status 200. -/
theorem timestampValidator_unchanged_iff_witness :
    testJsHandler (.file ⟨0, 0⟩ (.ok [7])) ⟨none, none⟩ =
      .ok ⟨200, "text/javascript", toUTCString 0, [7]⟩ :=
  (timestampValidator_unchanged_iff ⟨0, 0⟩ [7] ⟨none, none⟩).2 (by simp)

/-- C2: on the hash-validated route `/cache_policy.jpeg`, with the resource
present and readable, the handler computes the SHA-1 digest of the full
body and returns the 304 empty-body response exactly when `if-none-match`
equals that digest; otherwise it returns 200 with the full body. -/
theorem hashValidator_unchanged_iff (st : FileStat) (data : Bytes)
    (req : ConditionalRequest) :
    ((cachePolicyHandler (.file st (.ok data)) req).1 =
        .ok ⟨304, "image/jpeg", sha1Hex data, "public, max-age=10", []⟩ ↔
      req.ifNoneMatch = some (sha1Hex data)) ∧
    (req.ifNoneMatch ≠ some (sha1Hex data) →
      (cachePolicyHandler (.file st (.ok data)) req).1 =
        .ok ⟨200, "image/jpeg", sha1Hex data, "public, max-age=10", data⟩) := by
  by_cases h : req.ifNoneMatch = some (sha1Hex data) <;>
    simp [cachePolicyHandler, getFileHash, asyncReadFile, h]

/-- Witness for C2: with no `if-none-match` header the handler serves the
full body with status 200 and the digest as entity tag. -/
theorem hashValidator_unchanged_iff_witness :
    (cachePolicyHandler (.file ⟨0, 0⟩ (.ok [])) ⟨none, none⟩).1 =
      .ok ⟨200, "image/jpeg", sha1Hex [], "public, max-age=10", []⟩ :=
  (hashValidator_unchanged_iff ⟨0, 0⟩ [] ⟨none, none⟩).2 (by simp)

/-- Counterexample to C3: on a request with no `if-none-match` header
(which ends in the Fresh branch), the hash route opens and reads the
resource source twice, not exactly once — `getFileHash` consumes one full
read, and the Fresh branch opens a second `fs.createReadStream`. -/
theorem hashRoute_single_read_refuted :
    (cachePolicyHandler (.file ⟨0, 0⟩ (.ok [])) ⟨none, none⟩).1 =
      .ok ⟨200, "image/jpeg", sha1Hex [], "public, max-age=10", []⟩ ∧
    (cachePolicyHandler (.file ⟨0, 0⟩ (.ok [])) ⟨none, none⟩).2 = 2 ∧
    (cachePolicyHandler (.file ⟨0, 0⟩ (.ok [])) ⟨none, none⟩).2 ≠ 1 := by
  refine ⟨rfl, rfl, by decide⟩

/-- C3 (amended): in the Fresh branch the hash route obtains the body by
opening and reading the resource source a second time — a Fresh request
reads the source twice (once for the digest, once to stream the body),
while an Unchanged request reads it exactly once. -/
theorem hashRoute_read_count (st : FileStat) (data : Bytes)
    (req : ConditionalRequest) :
    (req.ifNoneMatch ≠ some (sha1Hex data) →
      cachePolicyHandler (.file st (.ok data)) req =
        (.ok ⟨200, "image/jpeg", sha1Hex data, "public, max-age=10", data⟩, 2)) ∧
    (req.ifNoneMatch = some (sha1Hex data) →
      (cachePolicyHandler (.file st (.ok data)) req).2 = 1) := by
  by_cases h : req.ifNoneMatch = some (sha1Hex data) <;>
    simp [cachePolicyHandler, getFileHash, asyncReadFile, h]

/-- Witness for the amended C3: a Fresh request reads the source twice and
an Unchanged request reads it once, at a concrete file state. -/
theorem hashRoute_read_count_witness :
    cachePolicyHandler (.file ⟨0, 0⟩ (.ok [])) ⟨none, none⟩ =
      (.ok ⟨200, "image/jpeg", sha1Hex [], "public, max-age=10", []⟩, 2) ∧
    (cachePolicyHandler (.file ⟨0, 0⟩ (.ok [])) ⟨none, some (sha1Hex [])⟩).2 = 1 :=
  ⟨(hashRoute_read_count ⟨0, 0⟩ [] ⟨none, none⟩).1 (by simp),
    (hashRoute_read_count ⟨0, 0⟩ [] ⟨none, some (sha1Hex [])⟩).2 rfl⟩

/-- C5: the forced-cache route `/test.css` never consults the conditional
request headers — any two requests get the identical response — and on a
readable resource it always answers 200 with the full body and
`Cache-Control: public,max-age=30`. -/
theorem forcedCache_unconditional (e : FsEntry) (req req2 : ConditionalRequest)
    (st : FileStat) (data : Bytes) :
    testCssHandler e req = testCssHandler e req2 ∧
    testCssHandler (.file st (.ok data)) req =
      .ok ⟨200, "text/css", "public,max-age=30", data⟩ :=
  ⟨rfl, rfl⟩

/-- Helper: any successful response of the hash route carries the digest of
the body as entity tag and the forced-cache header. -/
theorem etagHandler_ok_headers (st : FileStat) (data : Bytes)
    (req : ConditionalRequest) (r : EtagResponse)
    (h : (cachePolicyHandler (.file st (.ok data)) req).1 = .ok r) :
    r.etag = sha1Hex data ∧ r.cacheControl = "public, max-age=10" := by
  by_cases hm : req.ifNoneMatch = some (sha1Hex data) <;>
    simp [cachePolicyHandler, getFileHash, asyncReadFile, hm] at h <;>
    subst h <;> exact ⟨rfl, rfl⟩

/-- C4: when the resource is absent both validated routes fail with
`NotFound` (surfaced as 404), and when a body read fails mid-stream they
fail with `IOError` (surfaced as 500); in every failure case the result is
an error, never the 304 Unchanged response. -/
theorem storage_failures_surface (st : FileStat) (req : ConditionalRequest) :
    testJsHandler .absent req = .error .notFound ∧
    (cachePolicyHandler .absent req).1 = .error .notFound ∧
    (req.ifModifiedSince ≠ some (toUTCString (st.ctimeMs / 1000)) →
      testJsHandler (.file st (.error ())) req = .error .ioError) ∧
    (cachePolicyHandler (.file st (.error ())) req).1 = .error .ioError ∧
    statusOfError .notFound = 404 ∧ statusOfError .ioError = 500 := by
  refine ⟨rfl, rfl, fun h => ?_, rfl, rfl, rfl⟩
  simp [testJsHandler, fsStatSync, asyncReadFile, h]

/-- Witness for C4: a mid-stream read failure on the timestamp route with
no conditional header yields the `IOError` failure. -/
theorem storage_failures_surface_witness :
    testJsHandler (.file ⟨0, 0⟩ (.error ())) ⟨none, none⟩ = .error .ioError :=
  (storage_failures_surface ⟨0, 0⟩ ⟨none, none⟩).2.2.1 (by simp)

/-- C6: every successful response of a validated route carries the route
validator header — the timestamp route always reports the normalized
timestamp as `Last-Modified`, and the hash route always reports the digest
as entity tag, on 200 and 304 responses alike. -/
theorem validator_header_always_present (st : FileStat) (rr : Except Unit Bytes)
    (data : Bytes) (req : ConditionalRequest) :
    (∀ r : TsResponse, testJsHandler (.file st rr) req = .ok r →
      r.lastModified = toUTCString (st.ctimeMs / 1000)) ∧
    (∀ r : EtagResponse, (cachePolicyHandler (.file st (.ok data)) req).1 = .ok r →
      r.etag = sha1Hex data) :=
  ⟨fun r h => tsHandler_ok_lastModified st rr req r h,
    fun r h => (etagHandler_ok_headers st data req r h).1⟩

/-- Witness for C6: the headers are reported on a concrete 304 response of
the timestamp route and a concrete 200 response of the hash route. -/
theorem validator_header_always_present_witness :
    (⟨304, "text/javascript", toUTCString 0, []⟩ : TsResponse).lastModified =
      toUTCString 0 ∧
    (⟨200, "image/jpeg", sha1Hex [], "public, max-age=10", []⟩ :
      EtagResponse).etag = sha1Hex [] :=
  ⟨(validator_header_always_present ⟨0, 0⟩ (.ok []) []
      ⟨some (toUTCString 0), none⟩).1 ⟨304, "text/javascript", toUTCString 0, []⟩ rfl,
    (validator_header_always_present ⟨0, 0⟩ (.ok []) [] ⟨none, none⟩).2
      ⟨200, "image/jpeg", sha1Hex [], "public, max-age=10", []⟩ rfl⟩

/-- C7: a request with no conditional headers gets 200 with the full body
and a validator header whose value, echoed back as the corresponding
conditional header against the unmodified resource, yields the 304
empty-body response — on both validated routes. -/
theorem noValidator_roundTrip (st : FileStat) (data : Bytes) :
    testJsHandler (.file st (.ok data)) ⟨none, none⟩ =
      .ok ⟨200, "text/javascript", toUTCString (st.ctimeMs / 1000), data⟩ ∧
    testJsHandler (.file st (.ok data))
        ⟨some (toUTCString (st.ctimeMs / 1000)), none⟩ =
      .ok ⟨304, "text/javascript", toUTCString (st.ctimeMs / 1000), []⟩ ∧
    (cachePolicyHandler (.file st (.ok data)) ⟨none, none⟩).1 =
      .ok ⟨200, "image/jpeg", sha1Hex data, "public, max-age=10", data⟩ ∧
    (cachePolicyHandler (.file st (.ok data)) ⟨none, some (sha1Hex data)⟩).1 =
      .ok ⟨304, "image/jpeg", sha1Hex data, "public, max-age=10", []⟩ := by
  refine ⟨?_, ?_, ?_, ?_⟩ <;>
    simp [testJsHandler, cachePolicyHandler, fsStatSync, getFileHash, asyncReadFile]

/-- C8: the content digest is a pure function of the bytes — computing it
twice on the same byte sequence yields the identical string, which is
always 40 characters long and entirely lower-case hexadecimal. -/
theorem digest_deterministic_fixed_hex (data : Bytes) :
    sha1Hex data = sha1Hex data ∧
    (sha1Hex data).length = 40 ∧
    ((sha1Hex data).toList.all isHexChar) = true := by
  rcases hd : sha1Digest data with ⟨h0, h1, h2, h3, h4⟩
  refine ⟨rfl, ?_, ?_⟩
  · simp [sha1Hex, hd, String.length, hex8List_length]
  · simp [sha1Hex, hd, String.toList, List.all_append, hex8List_all_hex]

/-- C9: the timestamp route derives its validator from the stat ctime field
alone — the mtime field never influences the response, every successful
response reports `toUTCString` of the ctime, and after a metadata-only
change (same bytes, a ctime whose normalized form differs) a request
echoing the old validator is re-served the full body with status 200. -/
theorem timestampValidator_uses_ctime (m m2 c c2 : Nat) (rr : Except Unit Bytes)
    (data : Bytes) (req : ConditionalRequest) :
    testJsHandler (.file ⟨m, c⟩ rr) req = testJsHandler (.file ⟨m2, c⟩ rr) req ∧
    (∀ r : TsResponse, testJsHandler (.file ⟨m, c⟩ rr) req = .ok r →
      r.lastModified = toUTCString (c / 1000)) ∧
    (toUTCString (c / 1000) ≠ toUTCString (c2 / 1000) →
      testJsHandler (.file ⟨m2, c2⟩ (.ok data))
          ⟨some (toUTCString (c / 1000)), none⟩ =
        .ok ⟨200, "text/javascript", toUTCString (c2 / 1000), data⟩) := by
  refine ⟨?_, fun r h => tsHandler_ok_lastModified ⟨m, c⟩ rr req r h, fun h => ?_⟩
  · cases rr <;> rfl
  · simp [testJsHandler, fsStatSync, asyncReadFile, h]

set_option maxRecDepth 8192 in
/-- Witness for C9: with the ctime moved from epoch second 0 to one day
later and the bytes unchanged, echoing the old validator yields a 200
re-serve with the updated validator. -/
theorem timestampValidator_uses_ctime_witness :
    testJsHandler (.file ⟨5, 86400000⟩ (.ok [1])) ⟨some (toUTCString 0), none⟩ =
      .ok ⟨200, "text/javascript", toUTCString 86400, [1]⟩ :=
  (timestampValidator_uses_ctime 0 5 0 86400000 (.ok [1]) [1]
    ⟨some (toUTCString 0), none⟩).2.2 (by decide)

/-- C10: the hash route sets both the entity tag and the forced-cache
header `Cache-Control: public, max-age=10` before comparing, so every
successful response — the 304 Unchanged one included — carries both. -/
theorem hashRoute_both_headers (st : FileStat) (data : Bytes)
    (req : ConditionalRequest) :
    ∀ r : EtagResponse, (cachePolicyHandler (.file st (.ok data)) req).1 = .ok r →
      r.etag = sha1Hex data ∧ r.cacheControl = "public, max-age=10" :=
  fun r h => etagHandler_ok_headers st data req r h

/-- Witness for C10: the concrete 304 response to a matching
`if-none-match` carries the digest and the forced-cache header. -/
theorem hashRoute_both_headers_witness :
    (⟨304, "image/jpeg", sha1Hex [], "public, max-age=10", []⟩ :
        EtagResponse).etag = sha1Hex [] ∧
    (⟨304, "image/jpeg", sha1Hex [], "public, max-age=10", []⟩ :
        EtagResponse).cacheControl = "public, max-age=10" :=
  hashRoute_both_headers ⟨0, 0⟩ [] ⟨none, some (sha1Hex [])⟩
    ⟨304, "image/jpeg", sha1Hex [], "public, max-age=10", []⟩
    (by simp [cachePolicyHandler, getFileHash, asyncReadFile])

end HttpCacheDemo
